import Mathlib

/-!
Verification of the core data-fusion engine of the `predictstocks-api`
repository, shallowly embedded in Lean 4.

Conventions used throughout this development:
* Python floats are modelled as exact rationals (`ℚ`); `round(x, 2)` is
  modelled as exact decimal rounding half-to-even (`round2`).
* Python dictionaries that flow through `.get` calls are modelled by the
  JSON-like type `Val`; `.get` on a non-dictionary raises, which is
  modelled by `Except` (mirroring Python's `AttributeError`).
* External black boxes (the `json.loads` parser, `numpy` square roots,
  `datetime.strptime`, the OpenAI client) are taken as oracle parameters,
  so every theorem quantifies over their behaviour.
* Python exception strings are modelled as `String`; the repository
  classifies errors by substring tests on those strings, embedded by
  `strContains`.
-/

namespace PredictStocks

/-- Substring test on character lists: `containsSub pat l` is true iff
`pat` occurs contiguously inside `l` (Python's `pat in s`). -/
def containsSub (pat : List Char) : List Char → Bool
  | [] => pat.isEmpty
  | c :: rest => pat.isPrefixOf (c :: rest) || containsSub pat rest

/-- Python `pat in s` on strings. -/
def strContains (s pat : String) : Bool :=
  containsSub pat.data s.data

/-- Python `str.lower()` (ASCII case folding, which is all the error
classification strings in the repository need). -/
def strLower (s : String) : String :=
  ⟨s.data.map Char.toLower⟩

/-- Round a rational to the nearest integer, ties to even — the rounding
mode of Python's builtin `round`.  (`Rat.floor` is used rather than
`Int.floor` so that the definition evaluates inside the kernel.) -/
def halfEvenRound (q : ℚ) : ℤ :=
  let f := Rat.floor q
  let r := q - f
  if r < 1/2 then f
  else if 1/2 < r then f + 1
  else if f % 2 = 0 then f else f + 1

theorem ratFloor_eq (q : ℚ) : Rat.floor q = ⌊q⌋ := by
  rw [Rat.floor_def', Rat.floor_def]

/-- Python's `round(x, 2)`: round to two decimal places, ties to even. -/
def round2 (q : ℚ) : ℚ :=
  (halfEvenRound (q * 100) : ℚ) / 100

theorem halfEvenRound_le_of_le {q : ℚ} {b : ℤ} (hb : q ≤ b) :
    halfEvenRound q ≤ b := by
  have hfloor : ⌊q⌋ ≤ b := by
    have h : (⌊q⌋ : ℚ) ≤ (b : ℚ) := le_trans (Int.floor_le q) hb
    exact_mod_cast h
  have hfl := Int.floor_le q
  simp only [halfEvenRound, ratFloor_eq]
  split_ifs with h1 h2 h3
  · exact hfloor
  · have hlt : (⌊q⌋ : ℚ) < q := by linarith
    have : ⌊q⌋ < b := by
      have hq : (⌊q⌋ : ℚ) < (b : ℚ) := lt_of_lt_of_le hlt hb
      exact_mod_cast hq
    omega
  · exact hfloor
  · have hhalf : q - ⌊q⌋ = 1/2 := le_antisymm (not_lt.mp h2) (not_lt.mp h1)
    have hlt : (⌊q⌋ : ℚ) < q := by linarith
    have : ⌊q⌋ < b := by
      have hq : (⌊q⌋ : ℚ) < (b : ℚ) := lt_of_lt_of_le hlt hb
      exact_mod_cast hq
    omega

theorem le_halfEvenRound_of_le {q : ℚ} {a : ℤ} (ha : (a : ℚ) ≤ q) :
    a ≤ halfEvenRound q := by
  have hfloor : a ≤ ⌊q⌋ := Int.le_floor.mpr ha
  simp only [halfEvenRound, ratFloor_eq]
  split_ifs <;> omega

theorem round2_bounds {q : ℚ} (h1 : 1/10 ≤ q) (h2 : q ≤ 19/20) :
    1/10 ≤ round2 q ∧ round2 q ≤ 19/20 := by
  unfold round2
  have hlo : ((10 : ℤ) : ℚ) ≤ q * 100 := by push_cast; linarith
  have hhi : q * 100 ≤ ((95 : ℤ) : ℚ) := by push_cast; linarith
  have h3 : (10 : ℤ) ≤ halfEvenRound (q * 100) := le_halfEvenRound_of_le hlo
  have h4 : halfEvenRound (q * 100) ≤ (95 : ℤ) := halfEvenRound_le_of_le hhi
  have h3q : (10 : ℚ) ≤ (halfEvenRound (q * 100) : ℚ) := by exact_mod_cast h3
  have h4q : (halfEvenRound (q * 100) : ℚ) ≤ (95 : ℚ) := by exact_mod_cast h4
  constructor
  · rw [le_div_iff₀ (by norm_num : (0:ℚ) < 100)]
    linarith
  · rw [div_le_iff₀ (by norm_num : (0:ℚ) < 100)]
    linarith

/-- JSON-like dynamic values, modelling the Python objects that flow
through the prediction pipeline's dictionaries. -/
inductive Val where
  | str : String → Val
  | num : ℚ → Val
  | vdict : List (String × Val) → Val
  | vlist : List Val → Val
  | vnone : Val

/-- Python's `d.get(k, default)`.  Looking a key up on anything that is
not a dictionary raises an `AttributeError`, modelled by `Except.error`. -/
def pyGet (v : Val) (k : String) (dflt : Val) : Except String Val :=
  match v with
  | .vdict fields => .ok ((fields.lookup k).getD dflt)
  | _ => .error "AttributeError: get"

/-- Dictionary lookup with a rational default, used for the score tables
(`ai_confidence_map`, `alignment_scores`, ...): a non-string key simply
misses every string key and yields the default, as in Python. -/
def mapGet (m : List (String × ℚ)) (v : Val) (d : ℚ) : ℚ :=
  match v with
  | .str s => (m.lookup s).getD d
  | _ => d

/-- `v == "lit"` for a dynamic value: true only for equal strings. -/
def isStr (v : Val) (s : String) : Bool :=
  match v with
  | .str t => t = s
  | _ => false

/-- `v in [list of string literals]` for a dynamic value. -/
def memStrs (v : Val) (l : List String) : Bool :=
  match v with
  | .str t => t ∈ l
  | _ => false

/-! ## ConfidenceCalculator (`app/prediction/confidence_calculator.py`) -/

/-- `self.ai_confidence_map = {"low": 0.3, "medium": 0.6, "high": 0.9}`. -/
def ai_confidence_map : List (String × ℚ) :=
  [("low", 3/10), ("medium", 3/5), ("high", 9/10)]

/-- `alignment_scores` table of `_calculate_signal_alignment_factor`. -/
def alignment_scores : List (String × ℚ) :=
  [("strong_alignment", 1), ("good_alignment", 4/5), ("neutral", 3/5),
   ("mixed", 2/5), ("conflicting", 1/5)]

/-- `strength_scores` table of `_calculate_signal_alignment_factor`. -/
def strength_scores : List (String × ℚ) :=
  [("very_strong", 1), ("strong", 4/5), ("moderate", 3/5),
   ("weak", 2/5), ("very_weak", 1/5)]

/-- Collapse the internal `try/except` of a helper to its fallback value. -/
def exceptD (d : ℚ) : Except String ℚ → ℚ
  | .ok q => q
  | .error _ => d

/-- `ConfidenceCalculator._calculate_ai_confidence_factor`.  `jsonLoads`
is the `json.loads` oracle, used when the `"ai_analysis"` entry arrives as
an encoded string.  Any internal failure returns the 0.5 default, as the
method's own `try/except` does. -/
def calc_ai_confidence_factor (jsonLoads : String → Except String Val)
    (ai_analysis : Val) : ℚ :=
  exceptD (1/2) (do
    let r0 ← pyGet ai_analysis "ai_analysis" (Val.vdict [])
    let r1 ← match r0 with
      | .str s => jsonLoads s
      | v => pure v
    let conf ← pyGet r1 "confidence" (Val.str "medium")
    pure (mapGet ai_confidence_map conf (1/2)))

/-- `ConfidenceCalculator._calculate_data_quality_factor`.  No local
`try/except`: a lookup on a non-dictionary propagates. -/
def calc_data_quality_factor (post_count : ℤ) (technical_signals : Val) :
    Except String ℚ := do
  let posts_factor : ℚ := min 1 ((post_count : ℚ) / 20)
  let tq ← pyGet technical_signals "data_quality" (Val.str "limited")
  let tech_factor : ℚ := if isStr tq "good" then 1 else 7/10
  pure (posts_factor * (3/5) + tech_factor * (2/5))

/-- `ConfidenceCalculator._calculate_signal_alignment_factor`. -/
def calc_signal_alignment_factor (prediction : Val) : Except String ℚ := do
  let al ← pyGet prediction "signal_alignment" (Val.str "mixed")
  let cs ← pyGet prediction "combined_strength" (Val.str "weak")
  pure (mapGet alignment_scores al (1/2) * (3/5) +
        mapGet strength_scores cs (1/2) * (2/5))

/-- `ConfidenceCalculator._get_prediction_multiplier`. -/
def get_prediction_multiplier (prediction : Val) : Except String ℚ := do
  let d ← pyGet prediction "direction" (Val.str "hold")
  if memStrs d ["strong_buy", "strong_sell"] then do
    let al ← pyGet prediction "signal_alignment" (Val.str "mixed")
    pure (if memStrs al ["strong_alignment", "good_alignment"]
          then 6/5 else 4/5)
  else if memStrs d ["buy", "sell"] then pure 1
  else pure (4/5)

/-- The body of `ConfidenceCalculator.calculate_confidence`'s `try`
block: weighted sum of the four factors, direction multiplier, clamp to
[0.1, 0.95], round to two decimals. -/
def calculate_confidence_try (jsonLoads : String → Except String Val)
    (prediction ai_analysis technical_signals : Val) (post_count : ℤ) :
    Except String ℚ := do
  let ai := calc_ai_confidence_factor jsonLoads ai_analysis
  let dq ← calc_data_quality_factor post_count technical_signals
  let sa ← calc_signal_alignment_factor prediction
  let base : ℚ := 1/2
  let fc := base * (1/5) + ai * (3/10) + dq * (1/4) + sa * (1/4)
  let m ← get_prediction_multiplier prediction
  let fc2 := fc * m
  let fc3 := max (1/10) (min (19/20) fc2)
  pure (round2 fc3)

/-- `ConfidenceCalculator.calculate_confidence`: the `except` handler
turns any internal failure into the conservative 0.4 fallback. -/
def calculate_confidence (jsonLoads : String → Except String Val)
    (prediction ai_analysis technical_signals : Val) (post_count : ℤ) : ℚ :=
  match calculate_confidence_try jsonLoads prediction ai_analysis
      technical_signals post_count with
  | .ok q => q
  | .error _ => 2/5

@[simp] theorem bindE_ok {α β : Type} (a : α) (f : α → Except String β) :
    (Except.ok a >>= f) = f a := rfl

@[simp] theorem bindE_err {α β : Type} (e : String) (f : α → Except String β) :
    ((Except.error e : Except String α) >>= f) = Except.error e := rfl

@[simp] theorem mapE_ok {α β : Type} (a : α) (f : α → β) :
    (f <$> (Except.ok a : Except String α)) = Except.ok (f a) := rfl

@[simp] theorem mapE_err {α β : Type} (e : String) (f : α → β) :
    (f <$> (Except.error e : Except String α)) = Except.error e := rfl

@[simp] theorem pureE {α : Type} (a : α) :
    (pure a : Except String α) = Except.ok a := rfl

theorem clamp_bounds (x : ℚ) :
    1/10 ≤ max (1/10) (min (19/20) x) ∧ max (1/10) (min (19/20) x) ≤ 19/20 :=
  ⟨le_max_left _ _, max_le (by norm_num) (min_le_left _ _)⟩

/-- **C1.** For every input, `calculate_confidence` returns a value in the
closed interval [0.1, 0.95] that is an integer number of hundredths (two
decimal places), and whenever the internal computation fails it returns
exactly 0.4; being a total function, it never propagates the failure. -/
theorem C1_confidence_bounds (jsonLoads : String → Except String Val)
    (p a t : Val) (n : ℤ) :
    (1/10 ≤ calculate_confidence jsonLoads p a t n ∧
      calculate_confidence jsonLoads p a t n ≤ 19/20) ∧
    (∃ m : ℤ, calculate_confidence jsonLoads p a t n = (m : ℚ) / 100) ∧
    (∀ e, calculate_confidence_try jsonLoads p a t n = .error e →
      calculate_confidence jsonLoads p a t n = 2/5) := by
  cases htry : calculate_confidence_try jsonLoads p a t n with
  | error e =>
    refine ⟨⟨?_, ?_⟩, ⟨40, ?_⟩, fun e' _ => ?_⟩ <;>
      simp [calculate_confidence, htry] <;> norm_num
  | ok q =>
    have hq : ∃ x : ℚ, q = round2 (max (1/10) (min (19/20) x)) := by
      unfold calculate_confidence_try at htry
      cases hdq : calc_data_quality_factor n t with
      | error e => simp [hdq] at htry
      | ok dq =>
        cases hsa : calc_signal_alignment_factor p with
        | error e => simp [hdq, hsa] at htry
        | ok sa =>
          cases hm : get_prediction_multiplier p with
          | error e => simp [hdq, hsa, hm] at htry
          | ok m =>
            simp only [hdq, hsa, hm, bindE_ok, pureE, Except.ok.injEq] at htry
            exact ⟨_, htry.symm⟩
    obtain ⟨x, hx⟩ := hq
    have hcc : calculate_confidence jsonLoads p a t n = q := by
      simp [calculate_confidence, htry]
    have hcl := clamp_bounds x
    have hb := round2_bounds hcl.1 hcl.2
    refine ⟨⟨?_, ?_⟩, ⟨halfEvenRound (max (1/10) (min (19/20) x) * 100), ?_⟩,
      fun e he => ?_⟩
    · rw [hcc, hx]; exact hb.1
    · rw [hcc, hx]; exact hb.2
    · rw [hcc, hx]; rfl
    · exact Except.noConfusion he

/-- Witness for C1 at a concrete input on the failing path: a
non-dictionary `prediction` makes the internal computation raise, and the
result is the 0.4 fallback (inside the bounds). -/
theorem C1_confidence_bounds_witness :
    (1/10 ≤ calculate_confidence (fun _ => .error "boom")
        (Val.num 0) (Val.vdict []) (Val.vdict []) 0 ∧
      calculate_confidence (fun _ => .error "boom")
        (Val.num 0) (Val.vdict []) (Val.vdict []) 0 ≤ 19/20) ∧
    calculate_confidence (fun _ => .error "boom")
      (Val.num 0) (Val.vdict []) (Val.vdict []) 0 = 2/5 :=
  ⟨(C1_confidence_bounds (fun _ => .error "boom")
      (Val.num 0) (Val.vdict []) (Val.vdict []) 0).1,
   (C1_confidence_bounds (fun _ => .error "boom")
      (Val.num 0) (Val.vdict []) (Val.vdict []) 0).2.2
      "AttributeError: get" rfl⟩

/-! ### C2: the reference definition from the specification

`specConfidence` transcribes the claim's words (the weighted-sum
reference definition); `specConfidenceAmended` is the same definition
with the one change the code forces: a *missing* AI-confidence value
defaults to `"medium"` (factor 0.6), while 0.5 applies only to a value
that is present but unrecognized. -/

/-- The structured `prediction` dictionary built by the signal combiner,
as consumed by the confidence calculator. -/
def mkPrediction (dir al st : String) : Val :=
  .vdict [("direction", .str dir), ("signal_alignment", .str al),
          ("combined_strength", .str st)]

/-- An `ai_analysis` result whose inner dictionary has, or lacks, a
`confidence` entry. -/
def mkAiAnalysis : Option String → Val
  | Option.none => .vdict [("ai_analysis", .vdict [])]
  | Option.some c => .vdict [("ai_analysis", .vdict [("confidence", .str c)])]

/-- A `technical_signals` dictionary carrying a `data_quality` label. -/
def mkTechnical (q : String) : Val :=
  .vdict [("data_quality", .str q)]

/-- AI factor as the claim words it: low/medium/high map to
0.3/0.6/0.9, default 0.5 on a missing or unparsable value. -/
def specAiFactor : Option String → ℚ
  | Option.some c =>
      if c = "low" then 3/10 else if c = "medium" then 3/5
      else if c = "high" then 9/10 else 1/2
  | Option.none => 1/2

/-- AI factor as the code computes it: a missing value is defaulted to
`"medium"` before the table lookup, hence 0.6; 0.5 only for an
unrecognized value. -/
def specAiFactorAmended : Option String → ℚ
  | Option.some c =>
      if c = "low" then 3/10 else if c = "medium" then 3/5
      else if c = "high" then 9/10 else 1/2
  | Option.none => 3/5

/-- Data-quality factor per the claim:
`0.6·min(1, postCount/20) + 0.4·(1.0 if good else 0.7)`. -/
def specDataQualityFactor (n : ℤ) (q : String) : ℚ :=
  min 1 ((n : ℚ) / 20) * (3/5) + (if q = "good" then 1 else 7/10) * (2/5)

/-- Alignment factor per the claim:
`0.6·alignmentScore + 0.4·strengthScore` (the claim's tables; labels
outside them take the code's 0.5 default). -/
def specAlignmentFactor (al st : String) : ℚ :=
  (if al = "strong_alignment" then 1 else if al = "good_alignment" then 4/5
   else if al = "neutral" then 3/5 else if al = "mixed" then 2/5
   else if al = "conflicting" then 1/5 else 1/2) * (3/5) +
  (if st = "very_strong" then 1 else if st = "strong" then 4/5
   else if st = "moderate" then 3/5 else if st = "weak" then 2/5
   else if st = "very_weak" then 1/5 else 1/2) * (2/5)

/-- Direction multiplier per the claim: ×1.2 for strong_buy/strong_sell
with strong/good alignment, ×0.8 for strong_buy/strong_sell otherwise,
×1.0 for buy/sell, ×0.8 otherwise. -/
def specMultiplier (dir al : String) : ℚ :=
  if dir = "strong_buy" ∨ dir = "strong_sell" then
    (if al = "strong_alignment" ∨ al = "good_alignment" then 6/5 else 4/5)
  else if dir = "buy" ∨ dir = "sell" then 1
  else 4/5

/-- The claim's reference confidence score. -/
def specConfidence (dir al st : String) (conf : Option String) (q : String)
    (n : ℤ) : ℚ :=
  round2 (max (1/10) (min (19/20)
    ((1/2 * (1/5) + specAiFactor conf * (3/10) +
      specDataQualityFactor n q * (1/4) + specAlignmentFactor al st * (1/4)) *
     specMultiplier dir al)))

/-- The amended reference confidence score (missing AI confidence means
`"medium"`, i.e. factor 0.6). -/
def specConfidenceAmended (dir al st : String) (conf : Option String)
    (q : String) (n : ℤ) : ℚ :=
  round2 (max (1/10) (min (19/20)
    ((1/2 * (1/5) + specAiFactorAmended conf * (3/10) +
      specDataQualityFactor n q * (1/4) + specAlignmentFactor al st * (1/4)) *
     specMultiplier dir al)))

theorem ai_factor_eq (jsonLoads : String → Except String Val)
    (conf : Option String) :
    calc_ai_confidence_factor jsonLoads (mkAiAnalysis conf) =
      specAiFactorAmended conf := by
  cases conf with
  | none => rfl
  | some c =>
    by_cases h1 : c = "low"
    · subst h1; rfl
    · by_cases h2 : c = "medium"
      · subst h2; rfl
      · by_cases h3 : c = "high"
        · subst h3; rfl
        · have e1 : (c == "low") = false := beq_eq_false_iff_ne.mpr h1
          have e2 : (c == "medium") = false := beq_eq_false_iff_ne.mpr h2
          have e3 : (c == "high") = false := beq_eq_false_iff_ne.mpr h3
          simp [calc_ai_confidence_factor, mkAiAnalysis, pyGet, exceptD,
            mapGet, ai_confidence_map, List.lookup, e1, e2, e3,
            specAiFactorAmended, h1, h2, h3]

theorem data_quality_factor_eq (n : ℤ) (q : String) :
    calc_data_quality_factor n (mkTechnical q) =
      .ok (specDataQualityFactor n q) := by
  simp only [calc_data_quality_factor, mkTechnical, pyGet, bindE_ok, pureE,
    List.lookup, specDataQualityFactor, isStr]
  by_cases h : q = "good" <;> simp [h, beq_iff_eq]

theorem alignScore_eq (al : String) :
    mapGet alignment_scores (.str al) (1/2) =
      (if al = "strong_alignment" then 1 else if al = "good_alignment" then 4/5
       else if al = "neutral" then 3/5 else if al = "mixed" then 2/5
       else if al = "conflicting" then 1/5 else 1/2) := by
  by_cases h1 : al = "strong_alignment"
  · subst h1; rfl
  · by_cases h2 : al = "good_alignment"
    · subst h2; rfl
    · by_cases h3 : al = "neutral"
      · subst h3; rfl
      · by_cases h4 : al = "mixed"
        · subst h4; rfl
        · by_cases h5 : al = "conflicting"
          · subst h5; rfl
          · have e1 : (al == "strong_alignment") = false := beq_eq_false_iff_ne.mpr h1
            have e2 : (al == "good_alignment") = false := beq_eq_false_iff_ne.mpr h2
            have e3 : (al == "neutral") = false := beq_eq_false_iff_ne.mpr h3
            have e4 : (al == "mixed") = false := beq_eq_false_iff_ne.mpr h4
            have e5 : (al == "conflicting") = false := beq_eq_false_iff_ne.mpr h5
            simp [mapGet, alignment_scores, List.lookup, e1, e2, e3, e4, e5,
              h1, h2, h3, h4, h5]

theorem strengthScore_eq (st : String) :
    mapGet strength_scores (.str st) (1/2) =
      (if st = "very_strong" then 1 else if st = "strong" then 4/5
       else if st = "moderate" then 3/5 else if st = "weak" then 2/5
       else if st = "very_weak" then 1/5 else 1/2) := by
  by_cases h1 : st = "very_strong"
  · subst h1; rfl
  · by_cases h2 : st = "strong"
    · subst h2; rfl
    · by_cases h3 : st = "moderate"
      · subst h3; rfl
      · by_cases h4 : st = "weak"
        · subst h4; rfl
        · by_cases h5 : st = "very_weak"
          · subst h5; rfl
          · have e1 : (st == "very_strong") = false := beq_eq_false_iff_ne.mpr h1
            have e2 : (st == "strong") = false := beq_eq_false_iff_ne.mpr h2
            have e3 : (st == "moderate") = false := beq_eq_false_iff_ne.mpr h3
            have e4 : (st == "weak") = false := beq_eq_false_iff_ne.mpr h4
            have e5 : (st == "very_weak") = false := beq_eq_false_iff_ne.mpr h5
            simp [mapGet, strength_scores, List.lookup, e1, e2, e3, e4, e5,
              h1, h2, h3, h4, h5]

theorem signal_alignment_factor_eq (al st : String) (dir : String) :
    calc_signal_alignment_factor (mkPrediction dir al st) =
      .ok (specAlignmentFactor al st) := by
  have h0 : calc_signal_alignment_factor (mkPrediction dir al st) =
      .ok (mapGet alignment_scores (.str al) (1/2) * (3/5) +
           mapGet strength_scores (.str st) (1/2) * (2/5)) := rfl
  rw [h0, alignScore_eq, strengthScore_eq]
  rfl

theorem multiplier_eq (dir al st : String) :
    get_prediction_multiplier (mkPrediction dir al st) =
      .ok (specMultiplier dir al) := by
  simp only [get_prediction_multiplier, mkPrediction, pyGet, bindE_ok, pureE,
    List.lookup, memStrs, specMultiplier]
  by_cases h1 : dir = "strong_buy" <;> by_cases h2 : dir = "strong_sell" <;>
    by_cases h3 : dir = "buy" <;> by_cases h4 : dir = "sell" <;>
    by_cases g1 : al = "strong_alignment" <;>
    by_cases g2 : al = "good_alignment" <;>
    simp_all [beq_iff_eq]

/-- **C2 (amended).** On structured label inputs, `calculate_confidence`
equals the reference weighted-sum definition, with the amendment the code
forces: a *missing* AI-confidence value is defaulted to `"medium"`
(factor 0.6); the claim's 0.5 default applies only to a value that is
present but unrecognized. -/
theorem C2_confidence_formula (jsonLoads : String → Except String Val)
    (dir al st : String) (conf : Option String) (q : String) (n : ℤ) :
    calculate_confidence jsonLoads (mkPrediction dir al st)
        (mkAiAnalysis conf) (mkTechnical q) n =
      specConfidenceAmended dir al st conf q n := by
  unfold calculate_confidence calculate_confidence_try
  rw [ai_factor_eq, data_quality_factor_eq, signal_alignment_factor_eq al st dir,
    multiplier_eq dir al st]
  rfl

/-- **C2 counterexample.** With a present `ai_analysis` dictionary that
lacks the `confidence` key (post count 0, limited data, hold/mixed/weak),
the code yields 0.36 while the claim's reference definition (0.5 default
on a missing value) yields 0.34. -/
theorem C2_confidence_formula_counterexample :
    calculate_confidence (fun _ => .error "boom")
        (mkPrediction "hold" "mixed" "weak") (mkAiAnalysis Option.none)
        (mkTechnical "limited") 0 = 9/25 ∧
    specConfidence "hold" "mixed" "weak" Option.none "limited" 0 = 17/50 ∧
    (9/25 : ℚ) ≠ 17/50 := by
  refine ⟨?_, ?_, by norm_num⟩ <;> with_unfolding_all decide

/-! ## Posts and deduplication
(`app/prediction/ai_prediction_service.py`, `_remove_duplicate_posts`) -/

/-- A social-media post, with the fields the embedded code reads.
`id = none` models a missing `id` key (`post.get('id')` returning
`None`); Python treats `None` and `""` alike (falsy) in the dedup
guards. -/
structure Post where
  platform : String := ""
  id : Option String := Option.none
  text : String := ""
  date : String := ""
  metrics : List (String × ℚ) := []
deriving DecidableEq

/-- The post's id as the dedup code keys it: a missing id and an empty
id behave identically (both falsy), so both collapse to `""`. -/
def idKey (p : Post) : String := p.id.getD ""

/-- `post.get('text', '')[:100]`: the 100-character content key. -/
def contentKey (p : Post) : String := p.text.take 100

/-- The loop of `AIPredictionService._remove_duplicate_posts`, with the
two membership sets made explicit accumulator arguments. -/
def dedupGo : List Post → List String → List String → List Post
  | [], _, _ => []
  | p :: rest, seen_ids, seen_content =>
      let pid := idKey p
      let pcontent := contentKey p
      if pid ≠ "" ∧ pid ∈ seen_ids then dedupGo rest seen_ids seen_content
      else if pcontent ≠ "" ∧ pcontent ∈ seen_content then
        dedupGo rest seen_ids seen_content
      else
        p :: dedupGo rest (if pid ≠ "" then pid :: seen_ids else seen_ids)
          (if pcontent ≠ "" then pcontent :: seen_content else seen_content)

/-- `AIPredictionService._remove_duplicate_posts`. -/
def remove_duplicate_posts (posts : List Post) : List Post :=
  dedupGo posts [] []

/-- A post with neither an id nor any text content. -/
def emptyKeyed (p : Post) : Bool := idKey p = "" ∧ contentKey p = ""

theorem dedupGo_sublist :
    ∀ (l : List Post) (a b : List String), (dedupGo l a b).Sublist l := by
  intro l
  induction l with
  | nil => intro a b; simp [dedupGo]
  | cons p rest ih =>
    intro a b
    simp only [dedupGo]
    split_ifs with h1 h2 h3 h4 <;>
      first
        | exact (ih _ _).trans (List.sublist_cons_self p rest)
        | exact (ih _ _).cons₂ p

theorem dedupGo_id_fresh :
    ∀ (l : List Post) (a b : List String) (p : Post),
      p ∈ dedupGo l a b → idKey p ≠ "" → idKey p ∉ a := by
  intro l
  induction l with
  | nil => intro a b p hp; simp [dedupGo] at hp
  | cons q rest ih =>
    intro a b p hp hne
    simp only [dedupGo] at hp
    by_cases h1 : idKey q ≠ "" ∧ idKey q ∈ a
    · rw [if_pos h1] at hp; exact ih _ _ _ hp hne
    · rw [if_neg h1] at hp
      by_cases h2 : contentKey q ≠ "" ∧ contentKey q ∈ b
      · rw [if_pos h2] at hp; exact ih _ _ _ hp hne
      · rw [if_neg h2] at hp
        rcases List.mem_cons.mp hp with rfl | hmem
        · exact fun hmemid => h1 ⟨hne, hmemid⟩
        · intro hmemid
          apply ih _ _ _ hmem hne
          by_cases hc : idKey q ≠ ""
          · rw [if_pos hc]; exact List.mem_cons_of_mem _ hmemid
          · rw [if_neg hc]; exact hmemid

theorem dedupGo_content_fresh :
    ∀ (l : List Post) (a b : List String) (p : Post),
      p ∈ dedupGo l a b → contentKey p ≠ "" → contentKey p ∉ b := by
  intro l
  induction l with
  | nil => intro a b p hp; simp [dedupGo] at hp
  | cons q rest ih =>
    intro a b p hp hne
    simp only [dedupGo] at hp
    by_cases h1 : idKey q ≠ "" ∧ idKey q ∈ a
    · rw [if_pos h1] at hp; exact ih _ _ _ hp hne
    · rw [if_neg h1] at hp
      by_cases h2 : contentKey q ≠ "" ∧ contentKey q ∈ b
      · rw [if_pos h2] at hp; exact ih _ _ _ hp hne
      · rw [if_neg h2] at hp
        rcases List.mem_cons.mp hp with rfl | hmem
        · exact fun hmemc => h2 ⟨hne, hmemc⟩
        · intro hmemc
          apply ih _ _ _ hmem hne
          by_cases hc : contentKey q ≠ ""
          · rw [if_pos hc]; exact List.mem_cons_of_mem _ hmemc
          · rw [if_neg hc]; exact hmemc

theorem dedupGo_pairwise_id :
    ∀ (l : List Post) (a b : List String),
      (dedupGo l a b).Pairwise
        (fun x y => ¬(idKey x ≠ "" ∧ idKey x = idKey y)) := by
  intro l
  induction l with
  | nil => intro a b; simp [dedupGo]
  | cons p rest ih =>
    intro a b
    simp only [dedupGo]
    by_cases h1 : idKey p ≠ "" ∧ idKey p ∈ a
    · rw [if_pos h1]; exact ih _ _
    · rw [if_neg h1]
      by_cases h2 : contentKey p ≠ "" ∧ contentKey p ∈ b
      · rw [if_pos h2]; exact ih _ _
      · rw [if_neg h2]
        refine List.Pairwise.cons ?_ (ih _ _)
        intro y hy ⟨hne, heq⟩
        have hyne : idKey y ≠ "" := heq ▸ hne
        have hfresh := dedupGo_id_fresh _ _ _ _ hy hyne
        rw [← heq, if_pos hne] at hfresh
        exact hfresh (List.mem_cons_self _ _)

theorem dedupGo_pairwise_content :
    ∀ (l : List Post) (a b : List String),
      (dedupGo l a b).Pairwise
        (fun x y => ¬(contentKey x ≠ "" ∧ contentKey x = contentKey y)) := by
  intro l
  induction l with
  | nil => intro a b; simp [dedupGo]
  | cons p rest ih =>
    intro a b
    simp only [dedupGo]
    by_cases h1 : idKey p ≠ "" ∧ idKey p ∈ a
    · rw [if_pos h1]; exact ih _ _
    · rw [if_neg h1]
      by_cases h2 : contentKey p ≠ "" ∧ contentKey p ∈ b
      · rw [if_pos h2]; exact ih _ _
      · rw [if_neg h2]
        refine List.Pairwise.cons ?_ (ih _ _)
        intro y hy ⟨hne, heq⟩
        have hyne : contentKey y ≠ "" := heq ▸ hne
        have hfresh := dedupGo_content_fresh _ _ _ _ hy hyne
        rw [← heq, if_pos hne] at hfresh
        exact hfresh (List.mem_cons_self _ _)

theorem dedupGo_countP_emptyKeyed :
    ∀ (l : List Post) (a b : List String),
      (dedupGo l a b).countP emptyKeyed = l.countP emptyKeyed := by
  intro l
  induction l with
  | nil => intro a b; simp [dedupGo]
  | cons p rest ih =>
    intro a b
    simp only [dedupGo]
    by_cases h1 : idKey p ≠ "" ∧ idKey p ∈ a
    · rw [if_pos h1, ih, List.countP_cons]
      have hf : emptyKeyed p = false := by
        simp only [emptyKeyed, decide_eq_false_iff_not]
        rintro ⟨hid, _⟩
        exact h1.1 hid
      simp [hf]
    · rw [if_neg h1]
      by_cases h2 : contentKey p ≠ "" ∧ contentKey p ∈ b
      · rw [if_pos h2, ih, List.countP_cons]
        have hf : emptyKeyed p = false := by
          simp only [emptyKeyed, decide_eq_false_iff_not]
          rintro ⟨_, hc⟩
          exact h2.1 hc
        simp [hf]
      · rw [if_neg h2, List.countP_cons, List.countP_cons, ih]

/-- **C4.** Deduplication returns a subsequence of the input (stable,
first occurrence kept); no two output posts share an equal non-empty id;
no two share an equal non-empty 100-character content prefix; and posts
with neither an id nor any text content are all kept (in particular they
are never removed as duplicates of one another). -/
theorem C4_dedup (posts : List Post) :
    (remove_duplicate_posts posts).Sublist posts ∧
    (remove_duplicate_posts posts).Pairwise
      (fun x y => ¬(idKey x ≠ "" ∧ idKey x = idKey y)) ∧
    (remove_duplicate_posts posts).Pairwise
      (fun x y => ¬(contentKey x ≠ "" ∧ contentKey x = contentKey y)) ∧
    (remove_duplicate_posts posts).countP emptyKeyed =
      posts.countP emptyKeyed :=
  ⟨dedupGo_sublist posts [] [], dedupGo_pairwise_id posts [] [],
   dedupGo_pairwise_content posts [] [], dedupGo_countP_emptyKeyed posts [] []⟩

/-! ## SocialMediaService (`app/social_media/social_media_service.py`) -/

/-- `SocialMediaService._calculate_engagement_score`.  `post['metrics']`
is an ordered mapping of counter names to numbers; lookups use the
Python `.get` defaults. -/
def calculate_engagement_score (post : Post) : ℚ :=
  let mget := fun (k : String) (d : ℚ) => (post.metrics.lookup k).getD d
  if post.platform = "twitter" then
    mget "like_count" 0 * 1 + mget "retweet_count" 0 * 2 +
      mget "reply_count" 0 * (3/2) + mget "quote_count" 0 * (9/5)
  else if post.platform = "reddit" then
    mget "score" 0 * 1 + mget "comments" 0 * 2 +
      mget "upvote_ratio" (1/2) * 10
  else 0

/-- The sort key tuple `(x.get('date', ''), engagement_score(x))`,
compared lexicographically. -/
def postKey (p : Post) : Lex (String × ℚ) :=
  toLex (p.date, calculate_engagement_score p)

/-- "`a` sorts weakly before `b`" under `reverse=True`: `a`'s key is
greater than or equal to `b`'s. -/
def postBefore (a b : Post) : Prop := postKey b ≤ postKey a

instance : DecidableRel postBefore :=
  fun a b => inferInstanceAs (Decidable (postKey b ≤ postKey a))

instance : IsTotal Post postBefore :=
  ⟨fun a b => le_total (postKey b) (postKey a)⟩

instance : IsTrans Post postBefore :=
  ⟨fun _ _ _ h1 h2 => le_trans h2 h1⟩

/-- `posts.sort(key=lambda x: (date, engagement), reverse=True)`:
Python's sort is stable, and a stable sort is uniquely determined by its
comparator, so it is embedded as the stable insertion sort over the
"weakly before" relation `postBefore`. -/
def sortPosts (posts : List Post) : List Post :=
  posts.insertionSort postBefore

/-- Error classifier for the Twitter breaker:
`"rate limit" in str(e).lower() or "429" in str(e)`. -/
def twitter_trip_classifier (e : String) : Bool :=
  strContains (strLower e) "rate limit" || strContains e "429"

/-- Error classifier for the Reddit breaker: `"403" in str(e)`. -/
def reddit_trip_classifier (e : String) : Bool :=
  strContains e "403"

/-- The instance-scoped mutable flags of `SocialMediaService`. -/
structure SMState where
  twitter_rate_limited : Bool := false
  reddit_blocked : Bool := false
  global_start_time : Option ℚ := Option.none
deriving DecidableEq

/-- The environment of one collection call: the wall clock and the
outcome each platform client would produce if contacted. -/
structure CollectEnv where
  now : ℚ
  include_reddit : Bool
  twitterResult : Except String (List Post)
  redditResult : Except String (List Post)
  limit : ℕ

/-- A network attempt against a platform client. -/
inductive NetCall where
  | twitter
  | reddit
deriving DecidableEq

/-- `if self.global_start_time and time.time() - self.global_start_time
> 180` (a timestamp of `0.0` is falsy in Python). -/
def deadline_reached (st : SMState) (now : ℚ) : Bool :=
  match st.global_start_time with
  | Option.none => false
  | Option.some g => decide (g ≠ 0) && decide (now - g > 180)

/-- The Twitter block of `get_posts_for_ticker`: skip if the breaker is
tripped; trip on the shared deadline; otherwise attempt the client and
classify a failure. -/
def twitter_phase (st : SMState) (now : ℚ)
    (res : Except String (List Post)) :
    SMState × List Post × List NetCall :=
  if st.twitter_rate_limited then (st, [], [])
  else if deadline_reached st now then
    ({ st with twitter_rate_limited := true }, [], [])
  else
    match res with
    | .ok ps => (st, ps, [NetCall.twitter])
    | .error e =>
        (if twitter_trip_classifier e then
          { st with twitter_rate_limited := true }
         else st, [], [NetCall.twitter])

/-- The Reddit block of `get_posts_for_ticker`. -/
def reddit_phase (st : SMState) (include_reddit : Bool)
    (res : Except String (List Post)) :
    SMState × List Post × List NetCall :=
  if include_reddit && !st.reddit_blocked then
    match res with
    | .ok ps => (st, ps, [NetCall.reddit])
    | .error e =>
        (if reddit_trip_classifier e then
          { st with reddit_blocked := true }
         else st, [], [NetCall.reddit])
  else (st, [], [])

/-- `SocialMediaService.get_posts_for_ticker`: Twitter block, Reddit
block, then sort and truncate.  Besides the posts it returns the network
calls actually issued and the updated breaker state. -/
def get_posts_for_ticker (st : SMState) (env : CollectEnv) :
    SMState × List Post × List NetCall :=
  let t := twitter_phase st env.now env.twitterResult
  let r := reddit_phase t.1 env.include_reddit env.redditResult
  (r.1, (sortPosts (t.2.1 ++ r.2.1)).take env.limit, t.2.2 ++ r.2.2)

/-- `SocialMediaService.reset_platform_status`. -/
def reset_platform_status : SMState :=
  { twitter_rate_limited := false, reddit_blocked := false,
    global_start_time := Option.none }

/-- One session event: a collection call, `set_global_start_time`, or
`reset_platform_status`. -/
inductive SMAction where
  | collect (env : CollectEnv)
  | setStart (t : ℚ)
  | reset

/-- One step of the session, returning the new state and the network
calls issued. -/
def smStep (st : SMState) : SMAction → SMState × List NetCall
  | .collect env =>
      let r := get_posts_for_ticker st env
      (r.1, r.2.2)
  | .setStart t => ({ st with global_start_time := Option.some t }, [])
  | .reset => (reset_platform_status, [])

/-- Run a whole session, accumulating every network call issued. -/
def runSession (st : SMState) : List SMAction → SMState × List NetCall
  | [] => (st, [])
  | a :: rest =>
      let r := smStep st a
      let r2 := runSession r.1 rest
      (r2.1, r.2 ++ r2.2)

theorem twitter_phase_reddit_inv (st : SMState) (now : ℚ)
    (res : Except String (List Post)) :
    (twitter_phase st now res).1.reddit_blocked = st.reddit_blocked := by
  unfold twitter_phase
  split_ifs <;> try rfl
  cases res with
  | ok ps => rfl
  | error e => by_cases h : twitter_trip_classifier e <;> simp [h]

theorem twitter_phase_tripped (st : SMState) (now : ℚ)
    (res : Except String (List Post))
    (h : st.twitter_rate_limited = true) :
    twitter_phase st now res = (st, [], []) := by
  simp [twitter_phase, h]

theorem twitter_phase_keeps_trip (st : SMState) (now : ℚ)
    (res : Except String (List Post))
    (h : st.twitter_rate_limited = true) :
    (twitter_phase st now res).1.twitter_rate_limited = true := by
  rw [twitter_phase_tripped st now res h]
  exact h

theorem reddit_phase_twitter_inv (st : SMState) (inc : Bool)
    (res : Except String (List Post)) :
    (reddit_phase st inc res).1.twitter_rate_limited =
      st.twitter_rate_limited := by
  unfold reddit_phase
  split_ifs <;> try rfl
  cases res with
  | ok ps => rfl
  | error e => by_cases h : reddit_trip_classifier e <;> simp [h]

theorem reddit_phase_blocked (st : SMState) (inc : Bool)
    (res : Except String (List Post))
    (h : st.reddit_blocked = true) :
    reddit_phase st inc res = (st, [], []) := by
  simp [reddit_phase, h]

theorem smStep_twitter_tripped (st : SMState) (a : SMAction)
    (h : st.twitter_rate_limited = true) (hne : a ≠ SMAction.reset) :
    (smStep st a).1.twitter_rate_limited = true ∧
      NetCall.twitter ∉ (smStep st a).2 := by
  cases a with
  | collect env =>
    simp only [smStep, get_posts_for_ticker]
    rw [twitter_phase_tripped st env.now env.twitterResult h]
    constructor
    · rw [reddit_phase_twitter_inv]; exact h
    · unfold reddit_phase
      split_ifs
      · cases henv : env.redditResult with
        | ok ps => simp
        | error e => by_cases hc : reddit_trip_classifier e <;> simp [hc]
      · simp
  | setStart t => simpa [smStep] using h
  | reset => exact absurd rfl hne

theorem smStep_reddit_blocked (st : SMState) (a : SMAction)
    (h : st.reddit_blocked = true) (hne : a ≠ SMAction.reset) :
    (smStep st a).1.reddit_blocked = true ∧
      NetCall.reddit ∉ (smStep st a).2 := by
  cases a with
  | collect env =>
    simp only [smStep, get_posts_for_ticker]
    have hinv := twitter_phase_reddit_inv st env.now env.twitterResult
    have hb : (twitter_phase st env.now env.twitterResult).1.reddit_blocked
        = true := by rw [hinv]; exact h
    rw [reddit_phase_blocked _ _ _ hb]
    refine ⟨hb, ?_⟩
    unfold twitter_phase
    split_ifs
    · simp
    · simp
    · cases henv : env.twitterResult with
      | ok ps => simp
      | error e => by_cases hc : twitter_trip_classifier e <;> simp [hc]
  | setStart t => simpa [smStep] using h
  | reset => exact absurd rfl hne

theorem runSession_twitter_tripped (acts : List SMAction) :
    ∀ st : SMState, st.twitter_rate_limited = true →
      SMAction.reset ∉ acts →
      (runSession st acts).1.twitter_rate_limited = true ∧
        NetCall.twitter ∉ (runSession st acts).2 := by
  induction acts with
  | nil => intro st h _; exact ⟨h, by simp [runSession]⟩
  | cons a rest ih =>
    intro st h hna
    have hne : a ≠ SMAction.reset := fun contra => hna (contra ▸ List.mem_cons_self _ _)
    have hstep := smStep_twitter_tripped st a h hne
    have hrest := ih (smStep st a).1 hstep.1
      (fun contra => hna (List.mem_cons_of_mem _ contra))
    refine ⟨hrest.1, ?_⟩
    simp only [runSession, List.mem_append]
    rintro (hc | hc)
    · exact hstep.2 hc
    · exact hrest.2 hc

theorem runSession_reddit_blocked (acts : List SMAction) :
    ∀ st : SMState, st.reddit_blocked = true →
      SMAction.reset ∉ acts →
      (runSession st acts).1.reddit_blocked = true ∧
        NetCall.reddit ∉ (runSession st acts).2 := by
  induction acts with
  | nil => intro st h _; exact ⟨h, by simp [runSession]⟩
  | cons a rest ih =>
    intro st h hna
    have hne : a ≠ SMAction.reset := fun contra => hna (contra ▸ List.mem_cons_self _ _)
    have hstep := smStep_reddit_blocked st a h hne
    have hrest := ih (smStep st a).1 hstep.1
      (fun contra => hna (List.mem_cons_of_mem _ contra))
    refine ⟨hrest.1, ?_⟩
    simp only [runSession, List.mem_append]
    rintro (hc | hc)
    · exact hstep.2 hc
    · exact hrest.2 hc

/-- **C3 (amended).** Per-source breaker semantics as the code implements
them: a classified *rate-limit* failure trips the Twitter breaker and a
classified *forbidden* ("403") failure trips the Reddit breaker (not the
other way round); once a breaker is tripped, every later step of the
session that is not a `reset` keeps it tripped and issues no network call
to that source; `reset_platform_status` closes both breakers.  Nothing
but `reset` ever clears a tripped breaker. -/
theorem C3_breaker (st : SMState) (acts : List SMAction)
    (env : CollectEnv) (e : String) :
    (st.twitter_rate_limited = true → SMAction.reset ∉ acts →
      (runSession st acts).1.twitter_rate_limited = true ∧
        NetCall.twitter ∉ (runSession st acts).2) ∧
    (st.reddit_blocked = true → SMAction.reset ∉ acts →
      (runSession st acts).1.reddit_blocked = true ∧
        NetCall.reddit ∉ (runSession st acts).2) ∧
    (st.twitter_rate_limited = false →
      deadline_reached st env.now = false →
      env.twitterResult = .error e → twitter_trip_classifier e = true →
      (get_posts_for_ticker st env).1.twitter_rate_limited = true) ∧
    (st.reddit_blocked = false → env.include_reddit = true →
      env.redditResult = .error e → reddit_trip_classifier e = true →
      (get_posts_for_ticker st env).1.reddit_blocked = true) ∧
    smStep st SMAction.reset = (reset_platform_status, []) ∧
    reset_platform_status.twitter_rate_limited = false ∧
    reset_platform_status.reddit_blocked = false := by
  refine ⟨runSession_twitter_tripped acts st, runSession_reddit_blocked acts st,
    ?_, ?_, rfl, rfl, rfl⟩
  · intro h1 h2 h3 h4
    simp only [get_posts_for_ticker]
    rw [reddit_phase_twitter_inv]
    simp [twitter_phase, h1, h2, h3, h4]
  · intro h1 h2 h3 h4
    simp only [get_posts_for_ticker]
    have hb : (twitter_phase st env.now env.twitterResult).1.reddit_blocked
        = false := by rw [twitter_phase_reddit_inv]; exact h1
    simp [reddit_phase, hb, h2, h3, h4]

/-- A collection environment in which Twitter fails with a forbidden
(HTTP 403) error. -/
def envForbiddenTwitter : CollectEnv :=
  { now := 0, include_reddit := false,
    twitterResult := .error "403 Forbidden", redditResult := .ok [],
    limit := 100 }

/-- A collection environment in which Twitter fails with a rate-limit
error and Reddit fails with a forbidden error. -/
def envTripBoth : CollectEnv :=
  { now := 0, include_reddit := true,
    twitterResult := .error "429 rate limit exceeded",
    redditResult := .error "HTTP error 403", limit := 100 }

/-- Witness for C3 at concrete states and environments: a session
starting with Twitter already tripped stays tripped and issues no
Twitter call, and classified failures trip the respective breakers. -/
theorem C3_breaker_witness :
    ((runSession { twitter_rate_limited := true } [SMAction.collect envTripBoth]).1.twitter_rate_limited = true ∧
      NetCall.twitter ∉ (runSession { twitter_rate_limited := true } [SMAction.collect envTripBoth]).2) ∧
    (get_posts_for_ticker { } envTripBoth).1.twitter_rate_limited = true ∧
    (get_posts_for_ticker { } envTripBoth).1.reddit_blocked = true ∧
    smStep { twitter_rate_limited := true } SMAction.reset =
      (reset_platform_status, []) :=
  ⟨(C3_breaker { twitter_rate_limited := true } [SMAction.collect envTripBoth]
      envTripBoth "429 rate limit exceeded").1 rfl (by simp),
   (C3_breaker { } [] envTripBoth "429 rate limit exceeded").2.2.1
      rfl rfl rfl (by decide),
   (C3_breaker { } [] envTripBoth "HTTP error 403").2.2.2.1
      rfl rfl rfl (by decide),
   (C3_breaker { twitter_rate_limited := true } [] envTripBoth "x").2.2.2.2.1⟩

/-- **C3 counterexample.** `"403 Forbidden"` is exactly the signature the
code classifies as forbidden (it trips the Reddit breaker), yet when
*Twitter* fails with it the Twitter breaker stays closed and the next
collection call issues another Twitter network attempt — refuting the
claim that a forbidden failure trips the failing source's breaker. -/
theorem C3_breaker_counterexample :
    reddit_trip_classifier "403 Forbidden" = true ∧
    twitter_trip_classifier "403 Forbidden" = false ∧
    (smStep { } (SMAction.collect envForbiddenTwitter)).1.twitter_rate_limited
      = false ∧
    NetCall.twitter ∈
      (smStep (smStep { } (SMAction.collect envForbiddenTwitter)).1
        (SMAction.collect envForbiddenTwitter)).2 := by
  refine ⟨by decide, by decide, rfl, ?_⟩
  simp [smStep, get_posts_for_ticker, twitter_phase, reddit_phase,
    envForbiddenTwitter, deadline_reached, twitter_trip_classifier,
    reddit_trip_classifier, strContains, strLower, containsSub]

/-- **C6 (amended).** The collected posts are sorted by the stable
descending lexicographic order on the key `(date, engagement score)`:
the output is a permutation of the input, is sorted so that greater keys
come first, and two posts with *equal* keys keep their input (first
occurrence) order — there is no id tiebreak. -/
theorem C6_sort_order (posts : List Post) :
    (sortPosts posts).Perm posts ∧
    List.Sorted postBefore (sortPosts posts) ∧
    (∀ a b : Post, postKey a = postKey b →
      List.Sublist [a, b] posts → List.Sublist [a, b] (sortPosts posts)) := by
  refine ⟨List.perm_insertionSort _ _, List.sorted_insertionSort _ _, ?_⟩
  intro a b hk hsub
  exact List.pair_sublist_insertionSort (le_of_eq hk.symm) hsub

/-- First tie-breaking test post: equal date and engagement data to its
partner, lexicographically smaller id. -/
def tiePostA : Post :=
  { platform := "twitter", id := Option.some "a", text := "first text",
    date := "2023-01-01", metrics := [] }

/-- Second tie-breaking test post: identical sort key, different id. -/
def tiePostB : Post :=
  { platform := "twitter", id := Option.some "b", text := "second text",
    date := "2023-01-01", metrics := [] }

theorem tie_key_eq : postKey tiePostA = postKey tiePostB := by
  with_unfolding_all rfl

/-- Witness for C6 at a concrete input: sorting keeps an equal-key pair
in input order. -/
theorem C6_sort_order_witness :
    List.Sublist [tiePostB, tiePostA] (sortPosts [tiePostB, tiePostA]) :=
  (C6_sort_order [tiePostB, tiePostA]).2.2 tiePostB tiePostA
    tie_key_eq.symm (List.Sublist.refl _)

/-- **C6 counterexample.** Two posts with the same date and the same
engagement score but different ids come out of the sort in whichever
order they went in: the output is not a function of the multiset of
posts, so the ordering is *not* the total order with the post id as
tertiary key that the claim describes. -/
theorem C6_sort_counterexample :
    tiePostA.date = tiePostB.date ∧
    calculate_engagement_score tiePostA = calculate_engagement_score tiePostB ∧
    tiePostA ≠ tiePostB ∧
    sortPosts [tiePostB, tiePostA] = [tiePostB, tiePostA] ∧
    sortPosts [tiePostA, tiePostB] = [tiePostA, tiePostB] ∧
    sortPosts [tiePostB, tiePostA] ≠ sortPosts [tiePostA, tiePostB] := by
  have hBA : postBefore tiePostB tiePostA := le_of_eq tie_key_eq
  have hAB : postBefore tiePostA tiePostB := le_of_eq tie_key_eq.symm
  have h1 : sortPosts [tiePostB, tiePostA] = [tiePostB, tiePostA] := by
    simp only [sortPosts, List.insertionSort, List.orderedInsert]
    rw [if_pos hBA]
  have h2 : sortPosts [tiePostA, tiePostB] = [tiePostA, tiePostB] := by
    simp only [sortPosts, List.insertionSort, List.orderedInsert]
    rw [if_pos hAB]
  refine ⟨rfl, by with_unfolding_all rfl, by decide, h1, h2, ?_⟩
  rw [h1, h2]
  decide

/-! ## PredictionService (`app/prediction_service.py`) -/

/-- One price bar of historical data, with the fields the embedded code
reads (`day.get("date", "")`, `day.get("close", 0)`). -/
structure Bar where
  date : String := ""
  close : ℚ := 0
deriving DecidableEq

/-- The `data` dictionary assembled by `_collect_all_sources`.
`ai_analysis` holds the string-valued fields the generator reads. -/
structure CollectedData where
  historical : List Bar := []
  twitter : List Post := []
  reddit : List Post := []
  ai_analysis : List (String × String) := []
  successful_sources : List String := []

/-- The `prediction` sub-dictionary of the result. -/
structure GenPrediction where
  direction : String
  confidence : ℚ
  reasoning : String
deriving DecidableEq

/-- The result dictionary built by `_generate_prediction` (the
`supporting_data` entries are inlined as fields). -/
structure GenResult where
  ticker : String
  prediction_time : String
  timeframe : String
  prediction : GenPrediction
  sources_used : List String
  total_posts_analyzed : ℕ
  historical_data_points : ℕ
  sentiment : String
  success : Bool
deriving DecidableEq

/-- String-dictionary `.get` with default. -/
def aget (m : List (String × String)) (k d : String) : String :=
  (m.lookup k).getD d

/-- `PredictionService._generate_prediction`. -/
def generate_prediction (ticker start_time_iso : String)
    (data : CollectedData) : GenResult :=
  let successful_sources := data.successful_sources
  let ai_analysis := data.ai_analysis
  let base : GenResult :=
    { ticker := ticker, prediction_time := start_time_iso, timeframe := "1d",
      prediction := { direction := "hold", confidence := 0,
                      reasoning := "No data available" },
      sources_used := successful_sources,
      total_posts_analyzed := data.twitter.length + data.reddit.length,
      historical_data_points := data.historical.length,
      sentiment := aget ai_analysis "sentiment" "neutral",
      success := decide (0 < successful_sources.length) }
  if successful_sources = [] then
    { base with prediction :=
        { base.prediction with reasoning := "All data sources failed" } }
  else
    let sentiment := aget ai_analysis "sentiment" "neutral"
    let impact := aget ai_analysis "impact" "minimal change"
    let direction :=
      if sentiment ∈ ["very positive", "positive"] ∧ strContains impact "increase"
      then "buy"
      else if sentiment ∈ ["very negative", "negative"] ∧ strContains impact "decrease"
      then "sell"
      else "hold"
    let posts_count := data.twitter.length + data.reddit.length
    let bc1 : ℚ := (successful_sources.length : ℚ) * (1/5)
    let bc2 := bc1 +
      (if 15 ≤ posts_count then 1/5 else if 5 ≤ posts_count then 1/10 else 0)
    let bc3 := bc2 +
      (if 20 ≤ data.historical.length then 1/5
       else if 10 ≤ data.historical.length then 1/10 else 0)
    let confidence := min bc3 1
    let reasoning_parts :=
      ["Based on " ++ toString successful_sources.length ++ " data sources"]
      ++ (if 0 < posts_count then
            [toString posts_count ++ " social media posts"] else [])
      ++ (if 0 < data.historical.length then
            [toString data.historical.length ++ " historical data points"]
          else [])
      ++ ["AI analysis: " ++ sentiment ++ " sentiment"]
    { base with prediction :=
        { direction := direction, confidence := round2 confidence,
          reasoning := String.intercalate "; " reasoning_parts } }

/-- **C5 (amended).** When every source failed, `_generate_prediction`
still returns a well-formed result (the function is total — no exception
can reach the caller), with direction `"hold"`, reasoning
`"All data sources failed"` — but confidence **0.0**, not the 0.1 the
claim states. -/
theorem C5_total_failure (ticker t : String) (data : CollectedData)
    (h : data.successful_sources = []) :
    (generate_prediction ticker t data).prediction.direction = "hold" ∧
    (generate_prediction ticker t data).prediction.confidence = 0 ∧
    (generate_prediction ticker t data).prediction.reasoning =
      "All data sources failed" ∧
    (generate_prediction ticker t data).success = false := by
  simp [generate_prediction, h]

/-- Witness for C5 at the all-sources-failed data. -/
theorem C5_total_failure_witness :
    (generate_prediction "AAPL" "t0" { }).prediction.direction = "hold" ∧
    (generate_prediction "AAPL" "t0" { }).prediction.confidence = 0 ∧
    (generate_prediction "AAPL" "t0" { }).prediction.reasoning =
      "All data sources failed" ∧
    (generate_prediction "AAPL" "t0" { }).success = false :=
  C5_total_failure "AAPL" "t0" { } rfl

/-- **C5 counterexample.** On total source failure the returned
confidence is 0.0, not the claimed 0.1. -/
theorem C5_total_failure_counterexample :
    ({ } : CollectedData).successful_sources = [] ∧
    (generate_prediction "AAPL" "t0" { }).prediction.confidence = 0 ∧
    (generate_prediction "AAPL" "t0" { }).prediction.confidence ≠ 1/10 := by
  refine ⟨rfl, rfl, ?_⟩
  have h : (generate_prediction "AAPL" "t0" { }).prediction.confidence = 0 := rfl
  rw [h]
  norm_num

/-! ## TechnicalAnalyzer (`app/prediction/technical_analyzer.py`) -/

/-- The indicator dictionary built by `calculate_technical_indicators`;
the optional fields are the entries of the spread-in
`additional_indicators` dictionary. -/
structure TechSignals where
  trend : String
  latest_price : ℚ
  price_change : ℚ
  price_change_percent : ℚ
  data_quality : String
  data_points : ℕ
  sma_5 : Option ℚ := Option.none
  price_vs_sma : Option String := Option.none
  sma_10 : Option ℚ := Option.none
  volatility : Option ℚ := Option.none
  volatility_level : Option String := Option.none
deriving DecidableEq

/-- `TechnicalAnalyzer._create_insufficient_data_result`. -/
def create_insufficient_data_result : TechSignals :=
  { trend := "neutral", latest_price := 0, price_change := 0,
    price_change_percent := 0, data_quality := "insufficient",
    data_points := 0 }

/-- `TechnicalAnalyzer._calculate_trend`. -/
def calc_trend (latest previous : ℚ) : String :=
  if latest > previous then "up"
  else if latest < previous then "down"
  else "neutral"

/-- `TechnicalAnalyzer._calculate_percentage_change` (division guarded
against a zero previous close). -/
def calc_percentage_change (latest previous : ℚ) : ℚ :=
  if previous = 0 then 0 else (latest - previous) / previous * 100

/-- `TechnicalAnalyzer._classify_volatility`. -/
def classify_volatility (volatility mean_price : ℚ) : String :=
  if mean_price = 0 then "unknown"
  else
    let vp := volatility / mean_price * 100
    if vp < 2 then "low" else if vp < 5 then "medium" else "high"

/-- Python `l[-n:]`. -/
def lastN (n : ℕ) (l : List ℚ) : List ℚ := l.drop (l.length - n)

/-- `sum(l) / len(l)` (call sites guarantee `l` non-empty). -/
def listMean (l : List ℚ) : ℚ := l.sum / l.length

/-- `TechnicalAnalyzer.calculate_technical_indicators`.  `sqrtFn` is the
oracle for Python's `variance ** 0.5` (its value never affects the
claims, only the `volatility` field). -/
def calculate_technical_indicators (sqrtFn : ℚ → ℚ)
    (historical_data : List Bar) : TechSignals :=
  if historical_data.length < 2 then create_insufficient_data_result
  else
    let closes := historical_data.map (·.close)
    let rev := closes.reverse
    let latest_price := (rev.head?).getD 0
    let previous_price := ((rev.drop 1).head?).getD 0
    let trend := calc_trend latest_price previous_price
    let price_change := latest_price - previous_price
    let pcp := calc_percentage_change latest_price previous_price
    let dq := if 10 ≤ historical_data.length then "good" else "limited"
    let base : TechSignals :=
      { trend := trend, latest_price := latest_price,
        price_change := price_change, price_change_percent := pcp,
        data_quality := dq, data_points := historical_data.length }
    if 5 ≤ historical_data.length then
      let recent := lastN 5 closes
      let sma_5 := listMean recent
      let mean_price := listMean recent
      let variance : ℚ :=
        ((recent.map (fun p => (p - mean_price) ^ 2)).sum : ℚ) /
          (recent.length : ℚ)
      let volatility := sqrtFn variance
      { base with
        sma_5 := Option.some sma_5,
        price_vs_sma :=
          Option.some (if latest_price > sma_5 then "above" else "below"),
        sma_10 :=
          if 10 ≤ historical_data.length then
            Option.some (listMean (lastN 10 closes))
          else Option.none,
        volatility := Option.some volatility,
        volatility_level :=
          Option.some (classify_volatility volatility mean_price) }
    else base

/-- **C7.** With fewer than 2 bars the result is exactly the
insufficient sentinel (neutral trend, zeroed prices, `"insufficient"`
quality); `sma_5` is present iff at least 5 bars, `sma_10` iff at least
10; and with at least 2 bars the data quality is `"good"` iff at least
10 bars, `"limited"` otherwise. -/
theorem C7_technical_indicators (sqrtFn : ℚ → ℚ) (hd : List Bar) :
    (hd.length < 2 →
      calculate_technical_indicators sqrtFn hd =
        create_insufficient_data_result) ∧
    create_insufficient_data_result.trend = "neutral" ∧
    create_insufficient_data_result.latest_price = 0 ∧
    create_insufficient_data_result.price_change = 0 ∧
    create_insufficient_data_result.price_change_percent = 0 ∧
    create_insufficient_data_result.data_quality = "insufficient" ∧
    ((calculate_technical_indicators sqrtFn hd).sma_5.isSome ↔
      5 ≤ hd.length) ∧
    ((calculate_technical_indicators sqrtFn hd).sma_10.isSome ↔
      10 ≤ hd.length) ∧
    (2 ≤ hd.length →
      (((calculate_technical_indicators sqrtFn hd).data_quality = "good") ↔
        10 ≤ hd.length) ∧
      (hd.length < 10 →
        (calculate_technical_indicators sqrtFn hd).data_quality =
          "limited")) := by
  refine ⟨fun h => by simp [calculate_technical_indicators, h],
    rfl, rfl, rfl, rfl, rfl, ?_, ?_, ?_⟩
  · by_cases h2 : hd.length < 2
    · have h5 : ¬ 5 ≤ hd.length := by omega
      simp [calculate_technical_indicators, h2, create_insufficient_data_result, h5]
    · by_cases h5 : 5 ≤ hd.length
      · simp [calculate_technical_indicators, h2, h5]
      · simp [calculate_technical_indicators, h2, h5]
  · by_cases h2 : hd.length < 2
    · have h10 : ¬ 10 ≤ hd.length := by omega
      simp [calculate_technical_indicators, h2, create_insufficient_data_result, h10]
    · by_cases h5 : 5 ≤ hd.length
      · by_cases h10 : 10 ≤ hd.length
        · simp [calculate_technical_indicators, h2, h5, h10]
        · simp [calculate_technical_indicators, h2, h5, h10]
      · have h10 : ¬ 10 ≤ hd.length := by omega
        simp [calculate_technical_indicators, h2, h5, h10]
  · intro h2
    have h2' : ¬ hd.length < 2 := by omega
    by_cases h10 : 10 ≤ hd.length
    · by_cases h5 : 5 ≤ hd.length
      · simp [calculate_technical_indicators, h2', h5, h10]
      · omega
    · by_cases h5 : 5 ≤ hd.length
      · simp [calculate_technical_indicators, h2', h5, h10]
      · simp [calculate_technical_indicators, h2', h5, h10]

/-- Witness for C7 at concrete bar lists (one bar; and three bars). -/
theorem C7_technical_indicators_witness :
    calculate_technical_indicators (fun _ => 0) [{ close := 100 }] =
      create_insufficient_data_result ∧
    ((calculate_technical_indicators (fun _ => 0)
        [{ close := 100 }, { close := 105 }, { close := 103 }]).data_quality
      = "limited") :=
  ⟨(C7_technical_indicators (fun _ => 0) [{ close := 100 }]).1 (by decide),
   ((C7_technical_indicators (fun _ => 0)
      [{ close := 100 }, { close := 105 }, { close := 103 }]).2.2.2.2.2.2.2.2
      (by decide)).2 (by decide)⟩

/-! ## SignalCombiner (`app/prediction/signal_combiner.py`) -/

/-- `SignalCombiner._assess_signal_alignment`: the classification
cascade exactly as coded. -/
def assess_signal_alignment (technical_trend sentiment : String) : String :=
  if technical_trend = "neutral" ∧ sentiment = "neutral" then "neutral"
  else if technical_trend = sentiment then "strong_alignment"
  else if (technical_trend = "up" ∧ sentiment ∈ ["positive", "very positive"]) ∨
          (technical_trend = "down" ∧ sentiment ∈ ["negative", "very negative"])
  then "good_alignment"
  else if (technical_trend = "up" ∧ sentiment ∈ ["negative", "very negative"]) ∨
          (technical_trend = "down" ∧ sentiment ∈ ["positive", "very positive"])
  then "conflicting"
  else "mixed"

/-- **C8.** The alignment classification: `"neutral"` when both labels
are neutral; `"strong_alignment"` exactly when the two labels are
literally identical strings and not both neutral; `"good_alignment"`
whenever up is paired with the positive family or down with the negative
family; `"conflicting"` whenever up is paired with the negative family
or down with the positive family; `"mixed"` in every remaining case. -/
theorem C8_signal_alignment (t s : String) :
    (t = "neutral" ∧ s = "neutral" →
      assess_signal_alignment t s = "neutral") ∧
    (assess_signal_alignment t s = "strong_alignment" ↔
      (t = s ∧ ¬(t = "neutral" ∧ s = "neutral"))) ∧
    ((t = "up" ∧ s ∈ ["positive", "very positive"]) ∨
        (t = "down" ∧ s ∈ ["negative", "very negative"]) →
      assess_signal_alignment t s = "good_alignment") ∧
    ((t = "up" ∧ s ∈ ["negative", "very negative"]) ∨
        (t = "down" ∧ s ∈ ["positive", "very positive"]) →
      assess_signal_alignment t s = "conflicting") ∧
    (¬(t = "neutral" ∧ s = "neutral") → ¬ t = s →
      ¬((t = "up" ∧ s ∈ ["positive", "very positive"]) ∨
        (t = "down" ∧ s ∈ ["negative", "very negative"])) →
      ¬((t = "up" ∧ s ∈ ["negative", "very negative"]) ∨
        (t = "down" ∧ s ∈ ["positive", "very positive"])) →
      assess_signal_alignment t s = "mixed") := by
  refine ⟨?_, ⟨?_, ?_⟩, ?_, ?_, ?_⟩
  · rintro ⟨rfl, rfl⟩
    rfl
  · unfold assess_signal_alignment
    split_ifs with a1 a2 a3 a4 <;> intro h
    · exact absurd h (by decide)
    · exact ⟨a2, a1⟩
    · exact absurd h (by decide)
    · exact absurd h (by decide)
    · exact absurd h (by decide)
  · rintro ⟨heq, hne⟩
    have hnn : ¬(t = "neutral" ∧ s = "neutral") := fun h => hne h
    subst heq
    unfold assess_signal_alignment
    rw [if_neg hnn, if_pos rfl]
  · rintro (⟨rfl, hs⟩ | ⟨rfl, hs⟩) <;>
      (simp only [List.mem_cons, List.mem_singleton, List.not_mem_nil,
        or_false] at hs; rcases hs with rfl | rfl) <;> rfl
  · rintro (⟨rfl, hs⟩ | ⟨rfl, hs⟩) <;>
      (simp only [List.mem_cons, List.mem_singleton, List.not_mem_nil,
        or_false] at hs; rcases hs with rfl | rfl) <;> rfl
  · intro h1 h2 h3 h4
    unfold assess_signal_alignment
    rw [if_neg h1, if_neg h2, if_neg h3, if_neg h4]

/-- Witness for C8 on concrete label pairs from each class. -/
theorem C8_signal_alignment_witness :
    assess_signal_alignment "neutral" "neutral" = "neutral" ∧
    assess_signal_alignment "up" "very positive" = "good_alignment" ∧
    assess_signal_alignment "down" "positive" = "conflicting" ∧
    assess_signal_alignment "up" "neutral" = "mixed" :=
  ⟨(C8_signal_alignment "neutral" "neutral").1 (by decide),
   (C8_signal_alignment "up" "very positive").2.2.1 (by decide),
   (C8_signal_alignment "down" "positive").2.2.2.1 (by decide),
   (C8_signal_alignment "up" "neutral").2.2.2.2 (by decide) (by decide)
     (by decide) (by decide)⟩

/-! ## AIService (`app/ai/ai_service.py`) -/

/-- The prompt dictionary built by
`SentimentAnalyzer.create_analysis_prompt`. -/
structure PromptData where
  system_message : String
  user_prompt : String

/-- The dictionary returned by `AIService.analyze_social_media_impact`. -/
structure AIResponse where
  ai_analysis : Val
  raw_response : Option String := Option.none
  error : Option String := Option.none
  posts_analyzed : ℕ
  posts_shown_to_ai : ℕ

/-- `AIService._create_fallback_response`. -/
def create_fallback_response (error_reason : String) (posts_count : ℕ) :
    AIResponse :=
  { ai_analysis := Val.vdict
      [("sentiment", .str "neutral"), ("impact", .str "minimal change"),
       ("confidence", .str "low"),
       ("key_factors", .vlist [.str "AI analysis unavailable"]),
       ("patterns", .vlist []),
       ("reasoning", .str ("Fallback analysis: " ++ error_reason))],
    error := Option.some error_reason, posts_analyzed := posts_count,
    posts_shown_to_ai := 0 }

/-- `AIService.analyze_social_media_impact`.  The OpenAI client is an
oracle `client` (absent when initialization failed); `createPrompt` is
`SentimentAnalyzer.create_analysis_prompt` and `parseResponse` is
`SentimentAnalyzer.parse_ai_response`, both of which may fail — any of
these failures lands in the outer `except` and yields the fallback.  The
function is total: no exception reaches the caller. -/
def analyze_social_media_impact
    (client : Option (String → String → Except String String))
    (createPrompt : List Post → String → PromptData)
    (parseResponse : String → Except String Val)
    (posts : List Post) (ticker : String) : AIResponse :=
  if posts = [] then create_fallback_response "No posts available" 0
  else
    match client with
    | Option.none =>
        create_fallback_response "OpenAI service unavailable" posts.length
    | Option.some analyze_text =>
        let pd := createPrompt posts ticker
        match analyze_text pd.user_prompt pd.system_message with
        | .error e => create_fallback_response e posts.length
        | .ok raw =>
            match parseResponse raw with
            | .error e => create_fallback_response e posts.length
            | .ok parsed =>
                { ai_analysis := parsed, raw_response := Option.some raw,
                  posts_analyzed := posts.length,
                  posts_shown_to_ai := min posts.length 15 }

/-- **C9.** The sentiment-analysis operation is total (no exception
propagates), and on every failure path — no posts, missing client,
client error, unparsable response — it returns the fixed neutral
fallback, whose analysis carries sentiment `"neutral"`, impact
`"minimal change"` and confidence `"low"`. -/
theorem C9_ai_fallback
    (client : Option (String → String → Except String String))
    (createPrompt : List Post → String → PromptData)
    (parseResponse : String → Except String Val)
    (posts : List Post) (ticker : String) :
    (posts = [] →
      analyze_social_media_impact client createPrompt parseResponse posts
          ticker = create_fallback_response "No posts available" 0) ∧
    (client = Option.none → posts ≠ [] →
      analyze_social_media_impact client createPrompt parseResponse posts
          ticker =
        create_fallback_response "OpenAI service unavailable" posts.length) ∧
    (∀ f e, client = Option.some f → posts ≠ [] →
      f (createPrompt posts ticker).user_prompt
          (createPrompt posts ticker).system_message = .error e →
      analyze_social_media_impact client createPrompt parseResponse posts
          ticker = create_fallback_response e posts.length) ∧
    (∀ f raw e, client = Option.some f → posts ≠ [] →
      f (createPrompt posts ticker).user_prompt
          (createPrompt posts ticker).system_message = .ok raw →
      parseResponse raw = .error e →
      analyze_social_media_impact client createPrompt parseResponse posts
          ticker = create_fallback_response e posts.length) ∧
    (∀ reason n,
      pyGet (create_fallback_response reason n).ai_analysis "sentiment"
          Val.vnone = .ok (.str "neutral") ∧
      pyGet (create_fallback_response reason n).ai_analysis "impact"
          Val.vnone = .ok (.str "minimal change") ∧
      pyGet (create_fallback_response reason n).ai_analysis "confidence"
          Val.vnone = .ok (.str "low")) := by
  refine ⟨fun h => by simp [analyze_social_media_impact, h], ?_, ?_, ?_,
    fun reason n => ⟨rfl, rfl, rfl⟩⟩
  · intro hc hp
    simp [analyze_social_media_impact, hp, hc]
  · intro f e hc hp hf
    simp [analyze_social_media_impact, hp, hc, hf]
  · intro f raw e hc hp hf hparse
    simp [analyze_social_media_impact, hp, hc, hf, hparse]

/-- A post used to exercise the AI-service failure paths. -/
def witnessPost : Post := { platform := "twitter", text := "hello" }

/-- Witness for C9: concrete failing client and parser both land on the
neutral fallback. -/
theorem C9_ai_fallback_witness :
    analyze_social_media_impact Option.none
        (fun _ _ => ⟨"sys", "usr"⟩) (fun _ => .error "bad") [] "AAPL" =
      create_fallback_response "No posts available" 0 ∧
    analyze_social_media_impact
        (Option.some (fun _ _ => .error "API Error"))
        (fun _ _ => ⟨"sys", "usr"⟩) (fun _ => .error "bad")
        [witnessPost] "AAPL" =
      create_fallback_response "API Error" 1 ∧
    analyze_social_media_impact
        (Option.some (fun _ _ => .ok "gibberish"))
        (fun _ _ => ⟨"sys", "usr"⟩) (fun _ => .error "unparsable")
        [witnessPost] "AAPL" =
      create_fallback_response "unparsable" 1 :=
  ⟨(C9_ai_fallback Option.none (fun _ _ => ⟨"sys", "usr"⟩)
      (fun _ => .error "bad") [] "AAPL").1 rfl,
   (C9_ai_fallback (Option.some (fun _ _ => .error "API Error"))
      (fun _ _ => ⟨"sys", "usr"⟩) (fun _ => .error "bad")
      [witnessPost] "AAPL").2.2.1 _ "API Error" rfl (by simp) rfl,
   (C9_ai_fallback (Option.some (fun _ _ => .ok "gibberish"))
      (fun _ _ => ⟨"sys", "usr"⟩) (fun _ => .error "unparsable")
      [witnessPost] "AAPL").2.2.2.1 _ "gibberish" "unparsable" rfl
      (by simp) rfl rfl⟩

/-! ## Price projection and blending (`app/utils/price_prediction.py`) -/

/-- The dictionary returned by `calculate_technical_prediction`; `slope`
and `volatility` are absent in the insufficient-data sentinel. -/
structure TechPrediction where
  predicted_price : Option ℚ
  confidence : ℚ
  trend : String
  slope : Option ℚ := Option.none
  volatility : Option ℚ := Option.none
deriving DecidableEq

/-- `linear_regression(x, y)` returning `(slope, intercept)`, with the
guarded division by a zero denominator. -/
def linear_regression (x y : List ℚ) : ℚ × ℚ :=
  let x_mean := listMean x
  let y_mean := listMean y
  let numerator :=
    ((x.zip y).map (fun p => (p.1 - x_mean) * (p.2 - y_mean))).sum
  let denominator := (x.map (fun xi => (xi - x_mean) ^ 2)).sum
  if denominator = 0 then (0, if 0 < y.length then y_mean else 0)
  else
    let slope := numerator / denominator
    (slope, y_mean - slope * x_mean)

/-- `calculate_technical_prediction`.  `dateParse` is the
`datetime.strptime` oracle (the parsed dates are never used, but a
malformed date raises), `sqrtFn` the `numpy` square-root oracle; a zero
close among the returns denominators raises `ZeroDivisionError`.  All
raised exceptions propagate to the caller (`Except.error`). -/
def calculate_technical_prediction (dateParse : String → Except String Unit)
    (sqrtFn : ℚ → ℚ) (historical_data : List Bar) (prediction_days : ℤ) :
    Except String TechPrediction :=
  if historical_data.length < 5 then
    .ok { predicted_price := Option.none, confidence := 0,
          trend := "neutral" }
  else do
    let prices := historical_data.map (·.close)
    let _ ← historical_data.mapM (fun day => dateParse day.date)
    let window_size := min 30 prices.length
    let recent_prices := prices.drop (prices.length - window_size)
    let returns ← (recent_prices.zip recent_prices.tail).mapM
      (fun p => if p.1 = 0 then Except.error "ZeroDivisionError"
                else Except.ok ((p.2 - p.1) / p.1))
    let avg_return : ℚ :=
      if returns = [] then 0 else (returns.sum : ℚ) / (returns.length : ℚ)
    let volatility : ℚ :=
      if returns = [] then 0
      else sqrtFn (((returns.map (fun r => (r - avg_return) ^ 2)).sum : ℚ) /
        (returns.length : ℚ))
    let x_values := (List.range recent_prices.length).map (fun i => (i : ℚ))
    let reg := linear_regression x_values recent_prices
    let slope := reg.1
    let intercept := reg.2
    let next_x : ℚ := (recent_prices.length : ℚ) + (prediction_days : ℚ) - 1
    let predicted_price := intercept + slope * next_x
    let trend :=
      if slope > 0 then "up" else if slope < 0 then "down" else "neutral"
    let y_mean := listMean recent_prices
    let ss_total := (recent_prices.map (fun y => (y - y_mean) ^ 2)).sum
    let ss_residual := ((x_values.zip recent_prices).map
      (fun p => (p.2 - (intercept + slope * p.1)) ^ 2)).sum
    let r_squared : ℚ :=
      if ss_total ≠ 0 then 1 - ss_residual / ss_total else 0
    let confidence := max 0 (min r_squared 1)
    pure { predicted_price := Option.some (round2 predicted_price),
           confidence := confidence, trend := trend,
           slope := Option.some slope,
           volatility := Option.some volatility }

/-- `direction_modifiers` of `combine_predictions`. -/
def direction_modifiers : List (String × ℚ) :=
  [("strong_buy", 1/20), ("buy", 1/50), ("hold", 0),
   ("sell", -(1/50)), ("strong_sell", -(1/20))]

/-- A numeric dynamic value, or Python's `TypeError` when arithmetic
meets a non-number. -/
def asNum : Val → Except String ℚ
  | .num q => .ok q
  | _ => .error "TypeError"

/-- The dictionary returned by `combine_predictions`. -/
structure CombineResult where
  predicted_price : ℚ
  combined_confidence : ℚ
  ai_contribution : Val
  technical_contribution : String

/-- `combine_predictions`: blend the fused AI direction with the
regression projection (÷ by a zero current price raises). -/
def combine_predictions (ai_prediction : Val)
    (technical_prediction : TechPrediction) (current_price : ℚ) :
    Except String CombineResult := do
  let pred ← pyGet ai_prediction "prediction" (Val.vdict [])
  let aiDir ← pyGet pred "direction" (Val.str "hold")
  let aiConfV ← pyGet ai_prediction "confidence" (Val.num (1/2))
  let ai_confidence ← asNum aiConfV
  let ai_modifier := mapGet direction_modifiers aiDir 0 * ai_confidence
  match technical_prediction.predicted_price with
  | Option.some tech_price =>
      if current_price = 0 then Except.error "ZeroDivisionError"
      else
        let tech_percent_change := (tech_price - current_price) / current_price
        let combined_percent_change := ai_modifier * (7/10) +
          tech_percent_change * (3/10) * technical_prediction.confidence
        let combined_price := current_price * (1 + combined_percent_change)
        pure { predicted_price := round2 combined_price,
               combined_confidence := ai_confidence * (7/10) +
                 technical_prediction.confidence * (3/10),
               ai_contribution := aiDir,
               technical_contribution := technical_prediction.trend }
  | Option.none =>
      pure { predicted_price := round2 (current_price * (1 + ai_modifier)),
             combined_confidence := ai_confidence,
             ai_contribution := aiDir,
             technical_contribution := "unavailable" }

/-- The `ai_prediction` dictionary as the caller builds it:
`{"prediction": {"direction": …}, "confidence": …}`. -/
def mkAiPred (dir : String) (conf : ℚ) : Val :=
  .vdict [("prediction", .vdict [("direction", .str dir)]),
          ("confidence", .num conf)]

/-- **C10 (amended).** With fewer than 5 bars the regression projection
returns the `{predicted_price: None, confidence: 0.0, trend: "neutral"}`
sentinel without attempting a regression; and with an absent technical
price, blending returns the AI-only price **rounded to two decimals**,
`round2(current_price × (1 + modifier × aiConfidence))`, with the AI
confidence passed through unchanged. -/
theorem C10_price_blend (dateParse : String → Except String Unit)
    (sqrtFn : ℚ → ℚ) (hd : List Bar) (n : ℤ) (dir : String) (conf cp : ℚ)
    (tech : TechPrediction) :
    (hd.length < 5 →
      calculate_technical_prediction dateParse sqrtFn hd n =
        .ok { predicted_price := Option.none, confidence := 0,
              trend := "neutral" }) ∧
    (tech.predicted_price = Option.none →
      combine_predictions (mkAiPred dir conf) tech cp =
        .ok { predicted_price :=
                round2 (cp * (1 + mapGet direction_modifiers (.str dir) 0 * conf)),
              combined_confidence := conf,
              ai_contribution := Val.str dir,
              technical_contribution := "unavailable" }) := by
  constructor
  · intro h
    simp [calculate_technical_prediction, h]
  · intro h
    simp [combine_predictions, mkAiPred, pyGet, asNum, h, List.lookup]

/-- Witness for C10 at a concrete short history and sentinel blend. -/
theorem C10_price_blend_witness :
    calculate_technical_prediction (fun _ => .ok ()) (fun _ => 0)
        [{ close := 100 }, { close := 101 }] 1 =
      .ok { predicted_price := Option.none, confidence := 0,
            trend := "neutral" } ∧
    combine_predictions (mkAiPred "buy" (1/2))
        { predicted_price := Option.none, confidence := 0,
          trend := "neutral" } 100 =
      .ok { predicted_price :=
              round2 (100 * (1 + mapGet direction_modifiers (.str "buy") 0 * (1/2))),
            combined_confidence := 1/2,
            ai_contribution := Val.str "buy",
            technical_contribution := "unavailable" } :=
  ⟨(C10_price_blend (fun _ => .ok ()) (fun _ => 0)
      [{ close := 100 }, { close := 101 }] 1 "buy" (1/2) 100
      { predicted_price := Option.none, confidence := 0,
        trend := "neutral" }).1 (by decide),
   (C10_price_blend (fun _ => .ok ()) (fun _ => 0)
      [{ close := 100 }, { close := 101 }] 1 "buy" (1/2) 100
      { predicted_price := Option.none, confidence := 0,
        trend := "neutral" }).2 rfl⟩

/-- The predicted price a blend run produced, if it succeeded. -/
def combinedPriceOf (r : Except String CombineResult) : Option ℚ :=
  match r with
  | .ok c => Option.some c.predicted_price
  | .error _ => Option.none

/-- **C10 counterexample.** At `current_price = 1.005` with a `hold`
direction the code returns `round(1.005, 2) = 1.0`, not the exact
AI-only product `1.005` the claim describes: the claim omits the final
rounding to two decimals. -/
theorem C10_price_blend_counterexample :
    combinedPriceOf (combine_predictions (mkAiPred "hold" (1/2))
        { predicted_price := Option.none, confidence := 0,
          trend := "neutral" } (201/200)) = Option.some 1 ∧
    (201/200 : ℚ) * (1 + mapGet direction_modifiers (Val.str "hold") 0 * (1/2))
      = 201/200 ∧
    (1 : ℚ) ≠ 201/200 := by
  refine ⟨by with_unfolding_all decide, by with_unfolding_all decide,
    by norm_num⟩

end PredictStocks
